import Mathlib

/-!
# Verification of `src/migrations/apply-migration.js`

Shallow embedding of the Enrollmate migration runner script.  JavaScript strings
are embedded as `List Char`; the string operations the script uses
(`split(';')`, `trim()`, `startsWith('--')`, emptiness tests) are translated
below.  The remote Supabase client is modelled as a `Remote` structure whose
calls return `CallResult`s (success, error object, or a thrown exception), and
the whole run of the script (configuration check, file read, statement loop,
probe, catch handler) is the function `run`, which records the observable
trace: outcome, process exit code, whether the resource file was read, which
statements were submitted to the remote capability, and the guidance lines
printed.  Progress logs (statement counters and banners) are elided from the
trace; all diagnostic and guidance lines the claims talk about are kept,
built from the literal strings of the source.
-/

/-- Whitespace characters removed by JavaScript `String.prototype.trim`
(the ASCII ones, which are the only ones the migration source can contain). -/
def isJsWhitespace (c : Char) : Bool :=
  c = ' ' || c = '\t' || c = '\n' || c = '\r' || c = '\x0b' || c = '\x0c'

/-- JavaScript `stmt.trim()`: drop leading and trailing whitespace. -/
def jsTrim (s : List Char) : List Char :=
  ((s.dropWhile isJsWhitespace).reverse.dropWhile isJsWhitespace).reverse

/-- JavaScript `migrationSQL.split(';')` with the one-character separator `;`:
the list of fragments between the semicolons (adjacent or trailing separators
yield empty fragments, exactly as in JS). -/
def jsSplitSemi : List Char → List (List Char)
  | [] => [[]]
  | c :: rest =>
      if c = ';' then [] :: jsSplitSemi rest
      else
        match jsSplitSemi rest with
        | [] => [[c]]
        | f :: fs => (c :: f) :: fs

/-- The filter condition of the splitter, line 46 of the source:
`stmt.length > 0 && !stmt.startsWith('--') && stmt !== '\\n'`
(in the JS source `'\\n'` is the two-character string backslash-`n`). -/
def keepStmt (stmt : List Char) : Bool :=
  decide (0 < stmt.length) && !(['-', '-'].isPrefixOf stmt) && !(stmt == ['\\', 'n'])

/-- Lines 43-46 of the source: split the migration SQL on `;`, trim every
fragment, and keep the fragments passing `keepStmt`. -/
def splitStatements (migrationSQL : List Char) : List (List Char) :=
  ((jsSplitSemi migrationSQL).map jsTrim).filter keepStmt

/-- The spec's description of the discard rule (section 8, restated in C7):
a trimmed fragment is discarded when it is empty, begins with `--`, or equals
the literal two-character escaped-newline marker. -/
def discardFragment (t : List Char) : Bool :=
  t.isEmpty || ['-', '-'].isPrefixOf t || t == ['\\', 'n']

/-- The splitter as the spec describes it: split on `;`, trim, and discard
exactly the fragments matched by `discardFragment`. -/
def splitStatementsSpec (src : List Char) : List (List Char) :=
  ((jsSplitSemi src).map jsTrim).filter (fun t => !(discardFragment t))

/-- Result of one call to the Supabase client: success (`error` is null),
an error object (`error` set), or a thrown exception (network failure etc.,
lands in the `catch` handler). -/
inductive CallResult
  | ok
  | err
  | thrown
deriving DecidableEq

/-- The Remote Execution Capability: the `exec_sql` RPC taking one statement,
and the read-only probe `supabase.from('').select().limit(0)`. -/
structure Remote where
  rpc : List Char → CallResult
  probe : CallResult

/-- The two environment variables read at lines 19-20 of the source;
`none` models an unset variable. -/
structure Env where
  supabaseUrl : Option String
  supabaseAnonKey : Option String

/-- JavaScript falsiness of an optional environment string: unset or empty. -/
def envFalsy : Option String → Bool
  | none => true
  | some v => v == ""

/-- Line 22 of the source: `!supabaseUrl || !supabaseAnonKey`. -/
def configMissing (env : Env) : Bool :=
  envFalsy env.supabaseUrl || envFalsy env.supabaseAnonKey

/-- Possible outcomes of one invocation.  `completed`, `partialFallback`,
`manualFallback` and `failed` are the spec's Run Result values
(`partialFallback` appears in the spec's data model; the code never produces
it); `missingConfig` is the pre-run abort at lines 22-26. -/
inductive Outcome
  | completed
  | partialFallback
  | manualFallback
  | failed
  | missingConfig
deriving DecidableEq

/-- Observable trace of one invocation of the script: the outcome, the process
exit code, whether the migration resource file was read, the statements
submitted to the `exec_sql` RPC in order, and the diagnostic / guidance lines
printed. -/
structure RunTrace where
  outcome : Outcome
  exitCode : Nat
  fileRead : Bool
  submitted : List (List Char)
  output : List String
deriving DecidableEq

def envUrlName : String := "NEXT_PUBLIC_SUPABASE_API"

def envKeyName : String := "NEXT_PUBLIC_PUBLIC_API_KEY"

def migrationResourcePath : String := "migrations/001_create_scheduler_tables.sql"

def dashboardUrl : String := "https://supabase.com/dashboard/project/hwgzlwocdofoticqvwqg/sql"

/-- The two diagnostic lines printed at lines 23-24 when configuration is missing. -/
def missingConfigOutput : List String :=
  ["❌ Missing Supabase environment variables",
   "Please ensure " ++ envUrlName ++ " and " ++ envKeyName ++ " are set in your .env file"]

/-- The manual-fallback guidance printed at lines 71-79 when the probe fails. -/
def fallbackOutput : List String :=
  ["⚠️  Direct SQL execution not available with anon key",
   "📋 Please run the following SQL manually in your Supabase SQL Editor:",
   "📎 --- Copy the contents of " ++ migrationResourcePath ++ " ---",
   "🌐 Go to: " ++ dashboardUrl,
   "📄 Paste the SQL and run it",
   "✅ Migration file created successfully at: " ++ migrationResourcePath]

/-- The completion report printed at lines 84-91 when the probe succeeds. -/
def completedOutput : List String :=
  ["✅ Migration completed successfully!",
   "🎉 Your Enrollmate scheduler database is ready!",
   "📚 Tables created:",
   "  - course_sections (with sample data)",
   "  - user_schedules",
   "  - schedule_preferences",
   "🔒 Row Level Security (RLS) policies applied",
   "📊 Indexes created for optimal performance"]

/-- The manual-recovery guidance printed by the `catch` handler, lines 94-100. -/
def failedOutput : List String :=
  ["❌ Migration failed:",
   "📋 Manual steps needed:",
   "1. Go to your Supabase dashboard: " ++ dashboardUrl,
   "2. Copy the contents of " ++ migrationResourcePath,
   "3. Paste and execute the SQL in the SQL Editor"]

/-- The statement loop, lines 51-64 of the source: for each statement, the
inner guard `if (statement.trim())` skips empty statements; otherwise the
statement is submitted to the `exec_sql` RPC.  On an error object the loop
`break`s; on a thrown exception control transfers to the `catch` handler.
Returns the list of submitted statements (in submission order) and whether an
exception was thrown. -/
def runStatements (rpc : List Char → CallResult) : List (List Char) → List (List Char) × Bool
  | [] => ([], false)
  | statement :: rest =>
    if jsTrim statement ≠ [] then
      match rpc statement with
      | .ok =>
        let r := runStatements rpc rest
        (statement :: r.1, r.2)
      | .err => ([statement], false)
      | .thrown => ([statement], true)
    else runStatements rpc rest

/-- The statement loop with the inner guard removed: every statement is
submitted until the first non-success. -/
def runStatementsNoGuard (rpc : List Char → CallResult) :
    List (List Char) → List (List Char) × Bool
  | [] => ([], false)
  | statement :: rest =>
    match rpc statement with
    | .ok =>
      let r := runStatementsNoGuard rpc rest
      (statement :: r.1, r.2)
    | .err => ([statement], false)
    | .thrown => ([statement], true)

/-- The whole script: the configuration check at lines 22-26 (exit 1 before
reading the file or creating the client), then `applyMigration`: read the
resource file (`none` models an unreadable file, whose `readFileSync` throw
lands in the `catch` handler), split it, run the statement loop, then the
read-only probe; a failing probe prints the manual-fallback guidance and
returns (exit 0), a successful probe prints the completion report (exit 0);
any thrown exception reaches the `catch` handler, which prints recovery
guidance and exits 1. -/
def run (env : Env) (file : Option (List Char)) (remote : Remote) : RunTrace :=
  if configMissing env then
    { outcome := .missingConfig, exitCode := 1, fileRead := false,
      submitted := [], output := missingConfigOutput }
  else
    match file with
    | none =>
      { outcome := .failed, exitCode := 1, fileRead := true,
        submitted := [], output := failedOutput }
    | some migrationSQL =>
      let statements := splitStatements migrationSQL
      let r := runStatements remote.rpc statements
      if r.2 then
        { outcome := .failed, exitCode := 1, fileRead := true,
          submitted := r.1, output := failedOutput }
      else
        match remote.probe with
        | .thrown =>
          { outcome := .failed, exitCode := 1, fileRead := true,
            submitted := r.1, output := failedOutput }
        | .err =>
          { outcome := .manualFallback, exitCode := 0, fileRead := true,
            submitted := r.1, output := fallbackOutput }
        | .ok =>
          { outcome := .completed, exitCode := 0, fileRead := true,
            submitted := r.1, output := completedOutput }

/-- An environment with both variables set, used by the closed witnesses. -/
def sampleEnv : Env :=
  { supabaseUrl := some "https://example.supabase.co", supabaseAnonKey := some "anon-key" }

/-- A remote capability that accepts every RPC, with a successful probe. -/
def remoteAllOk : Remote := { rpc := fun _ => .ok, probe := .ok }

/-- A remote capability that rejects every RPC (error object, the code path
`⚠️  RPC method not available`), with a successful probe. -/
def remoteRejectRpc : Remote := { rpc := fun _ => .err, probe := .ok }

/-- A remote capability that accepts every RPC but whose probe fails. -/
def remoteProbeFails : Remote := { rpc := fun _ => .ok, probe := .err }

theorem head?_dropWhile_false (p : Char → Bool) (l : List Char) (x : Char)
    (h : (l.dropWhile p).head? = some x) : p x = false := by
  induction l with
  | nil => simp [List.dropWhile] at h
  | cons a l ih =>
    by_cases hpa : p a = true
    · rw [List.dropWhile_cons, if_pos hpa] at h
      exact ih h
    · rw [List.dropWhile_cons, if_neg hpa] at h
      simp only [List.head?_cons, Option.some.injEq] at h
      subst h
      simpa using hpa

theorem dropWhile_eq_self_of_head (p : Char → Bool) (l : List Char)
    (h : ∀ x, l.head? = some x → p x = false) : l.dropWhile p = l := by
  cases l with
  | nil => rfl
  | cons a l =>
    rw [List.dropWhile_cons, if_neg]
    simp [h a rfl]

theorem getLast?_dropWhile (p : Char → Bool) (l : List Char)
    (h : l.dropWhile p ≠ []) : (l.dropWhile p).getLast? = l.getLast? := by
  induction l with
  | nil => simp [List.dropWhile] at h
  | cons a l ih =>
    by_cases hpa : p a = true
    · rw [List.dropWhile_cons, if_pos hpa] at h ⊢
      rw [ih h]
      cases l with
      | nil => simp [List.dropWhile] at h
      | cons b l => rw [List.getLast?_cons_cons]
    · rw [List.dropWhile_cons, if_neg hpa]

/-- Trimming is idempotent, hence every already-trimmed fragment is unchanged
by a further `trim()`. -/
theorem jsTrim_idem (l : List Char) : jsTrim (jsTrim l) = jsTrim l := by
  unfold jsTrim
  have h1 : ((((l.dropWhile isJsWhitespace).reverse.dropWhile
      isJsWhitespace).reverse).dropWhile isJsWhitespace)
      = ((l.dropWhile isJsWhitespace).reverse.dropWhile isJsWhitespace).reverse := by
    apply dropWhile_eq_self_of_head
    intro x hx
    rw [List.head?_reverse] at hx
    by_cases hv : (l.dropWhile isJsWhitespace).reverse.dropWhile isJsWhitespace = []
    · rw [hv] at hx
      simp at hx
    · rw [getLast?_dropWhile _ _ hv, List.getLast?_reverse] at hx
      exact head?_dropWhile_false isJsWhitespace l x hx
  rw [h1, List.reverse_reverse]
  have h2 : ((l.dropWhile isJsWhitespace).reverse.dropWhile isJsWhitespace).dropWhile
      isJsWhitespace = (l.dropWhile isJsWhitespace).reverse.dropWhile isJsWhitespace := by
    apply dropWhile_eq_self_of_head
    intro x hx
    exact head?_dropWhile_false isJsWhitespace _ x hx
  rw [h2]

/-- Every member of the splitter's output is a fixed point of `jsTrim`, is
non-empty, and does not begin with `--`. -/
theorem mem_splitStatements (src t : List Char) (ht : t ∈ splitStatements src) :
    jsTrim t = t ∧ t ≠ [] ∧ ['-', '-'].isPrefixOf t = false := by
  rw [splitStatements, List.mem_filter] at ht
  obtain ⟨hmem, hkeep⟩ := ht
  obtain ⟨a, _, ha⟩ := List.mem_map.mp hmem
  rw [keepStmt] at hkeep
  simp only [Bool.and_eq_true, decide_eq_true_eq, Bool.not_eq_true'] at hkeep
  obtain ⟨⟨hlen, hpre⟩, _⟩ := hkeep
  have hne : t ≠ [] := by
    intro hnil
    rw [hnil] at hlen
    simp at hlen
  have htrim : jsTrim t = t := by
    rw [← ha]
    exact jsTrim_idem a
  exact ⟨htrim, hne, hpre⟩

/-- Every member of the splitter's output passes the loop's inner guard
`if (statement.trim())`. -/
theorem splitStatements_trim_ne (src t : List Char) (ht : t ∈ splitStatements src) :
    jsTrim t ≠ [] := by
  obtain ⟨htrim, hne, -⟩ := mem_splitStatements src t ht
  rw [htrim]
  exact hne

/-- C1: every statement returned by the splitter is non-empty after trimming and
does not begin with the comment marker `--`, and the returned sequence is a
sublist (hence order-preserving) of the trimmed fragments of the source text. -/
theorem splitter_output_wellformed (src : List Char) :
    (∀ t ∈ splitStatements src,
        jsTrim t ≠ [] ∧ ['-', '-'].isPrefixOf t = false) ∧
    (splitStatements src).Sublist ((jsSplitSemi src).map jsTrim) := by
  constructor
  · intro t ht
    obtain ⟨htrim, hne, hpre⟩ := mem_splitStatements src t ht
    refine ⟨?_, hpre⟩
    rw [htrim]
    exact hne
  · exact List.filter_sublist _

theorem splitter_output_wellformed_witness :
    jsTrim ['a'] ≠ [] ∧ ['-', '-'].isPrefixOf ['a'] = false :=
  (splitter_output_wellformed ("a;".toList)).1 ['a'] (by decide)

/-- C6: the worked example from the spec splits into exactly the two expected
statements, in order. -/
theorem splitter_worked_example :
    splitStatements
        ("CREATE TABLE a (id int);\n-- comment\n;   \nCREATE INDEX idx ON a(id);".toList)
      = ["CREATE TABLE a (id int)".toList, "CREATE INDEX idx ON a(id)".toList] := by
  decide

/-- The source's filter condition keeps exactly the fragments the spec does not
discard. -/
theorem keepStmt_eq_not_discard (t : List Char) :
    keepStmt t = !(discardFragment t) := by
  simp only [keepStmt, discardFragment]
  cases t with
  | nil => rfl
  | cons c cs => simp [Bool.not_or, Bool.and_assoc]

/-- C7: the splitter discards exactly the trimmed fragments that are empty,
begin with `--`, or equal the literal backslash-`n` marker, keeping all others
in order: it coincides with the spec-side description `splitStatementsSpec`. -/
theorem splitter_matches_spec (src : List Char) :
    splitStatements src = splitStatementsSpec src := by
  unfold splitStatements splitStatementsSpec
  exact List.filter_congr (fun t _ => keepStmt_eq_not_discard t)

/-- On statement lists whose members all pass the inner guard, the guarded loop
behaves exactly like the guard-free loop. -/
theorem runStatements_eq_noGuard (rpc : List Char → CallResult) (stmts : List (List Char))
    (h : ∀ t ∈ stmts, jsTrim t ≠ []) :
    runStatements rpc stmts = runStatementsNoGuard rpc stmts := by
  induction stmts with
  | nil => rfl
  | cons st rest ih =>
    have hst : jsTrim st ≠ [] := h st (by simp)
    have hrest : ∀ t ∈ rest, jsTrim t ≠ [] := fun t ht => h t (by simp [ht])
    simp only [runStatements, runStatementsNoGuard, if_pos hst]
    cases rpc st with
    | ok => rw [ih hrest]
    | err => rfl
    | thrown => rfl

/-- The guard-free loop always submits a prefix of the statement list. -/
theorem runStatementsNoGuard_isPrefix (rpc : List Char → CallResult)
    (stmts : List (List Char)) :
    ∃ k, (runStatementsNoGuard rpc stmts).1 = stmts.take k := by
  induction stmts with
  | nil => exact ⟨0, rfl⟩
  | cons st rest ih =>
    cases hr : rpc st with
    | ok =>
      obtain ⟨k, hk⟩ := ih
      refine ⟨k + 1, ?_⟩
      simp only [runStatementsNoGuard, hr, List.take_succ_cons]
      rw [hk]
    | err => exact ⟨1, by simp [runStatementsNoGuard, hr]⟩
    | thrown => exact ⟨1, by simp [runStatementsNoGuard, hr]⟩

/-- If every statement of `pre` succeeds and `bad` does not, the loop submits
exactly `pre ++ [bad]`: nothing after the first failure is submitted. -/
theorem runStatements_stops_at_failure (rpc : List Char → CallResult)
    (pre : List (List Char)) (bad : List Char) (post : List (List Char))
    (hguard : ∀ t ∈ pre ++ bad :: post, jsTrim t ≠ [])
    (hok : ∀ t ∈ pre, rpc t = .ok) (hbad : rpc bad ≠ .ok) :
    (runStatements rpc (pre ++ bad :: post)).1 = pre ++ [bad] := by
  induction pre with
  | nil =>
    have hb : jsTrim bad ≠ [] := hguard bad (by simp)
    simp only [List.nil_append, runStatements, if_pos hb]
    cases hr : rpc bad with
    | ok => exact absurd hr hbad
    | err => rfl
    | thrown => rfl
  | cons st pre ih =>
    have hst : jsTrim st ≠ [] := hguard st (by simp)
    have h0 : rpc st = .ok := hok st (by simp)
    simp only [List.cons_append, runStatements, if_pos hst, h0, List.append_eq]
    rw [ih (fun t ht => hguard t (by simp at ht ⊢; tauto))
        (fun t ht => hok t (by simp [ht]))]

/-- C3: once the capability reports a failure (error or unsupported operation)
for some statement, no later statement of the splitter's output is submitted:
the submitted list is exactly the successful prefix plus the failing statement. -/
theorem failure_stops_submission (src : List Char) (rpc : List Char → CallResult)
    (pre : List (List Char)) (bad : List Char) (post : List (List Char))
    (hsplit : splitStatements src = pre ++ bad :: post)
    (hok : ∀ t ∈ pre, rpc t = .ok) (hbad : rpc bad ≠ .ok) :
    (runStatements rpc (splitStatements src)).1 = pre ++ [bad] := by
  rw [hsplit]
  refine runStatements_stops_at_failure rpc pre bad post ?_ hok hbad
  intro t ht
  exact splitStatements_trim_ne src t (hsplit ▸ ht)

theorem failure_stops_submission_witness :
    (runStatements remoteRejectRpc.rpc (splitStatements ("a;b;".toList))).1
      = [] ++ [['a']] :=
  failure_stops_submission ("a;b;".toList) remoteRejectRpc.rpc [] ['a'] [['b']]
    (by decide) (fun t ht => absurd ht (List.not_mem_nil t)) (by decide)

/-- C10: the inner guard `if (statement.trim())` always passes on the
splitter's output (its skip branch is unreachable), so the loop coincides with
the guard-free loop and the submitted statements form a prefix of the
statement list: every statement before the first capability failure is
submitted exactly once, at its own position. -/
theorem inner_guard_redundant (src : List Char) (rpc : List Char → CallResult) :
    (∀ t ∈ splitStatements src, jsTrim t ≠ []) ∧
    runStatements rpc (splitStatements src)
      = runStatementsNoGuard rpc (splitStatements src) ∧
    ∃ k, (runStatements rpc (splitStatements src)).1 = (splitStatements src).take k := by
  have hg : ∀ t ∈ splitStatements src, jsTrim t ≠ [] :=
    fun t ht => splitStatements_trim_ne src t ht
  have he : runStatements rpc (splitStatements src)
      = runStatementsNoGuard rpc (splitStatements src) :=
    runStatements_eq_noGuard rpc _ hg
  refine ⟨hg, he, ?_⟩
  rw [he]
  exact runStatementsNoGuard_isPrefix rpc _

theorem inner_guard_redundant_witness :
    jsTrim ("x".toList) ≠ [] ∧
    runStatements remoteAllOk.rpc (splitStatements ("x;".toList))
      = runStatementsNoGuard remoteAllOk.rpc (splitStatements ("x;".toList)) :=
  ⟨(inner_guard_redundant ("x;".toList) remoteAllOk.rpc).1 ("x".toList) (by decide),
   (inner_guard_redundant ("x;".toList) remoteAllOk.rpc).2.1⟩

/-- C2: in a run that reaches the final read-only probe (configuration present,
file readable, no exception thrown in the statement loop), a successful probe
yields the Completed outcome, and a failing probe yields the ManualFallback
outcome with printed guidance that includes the migration resource path. -/
theorem probe_decides_outcome (env : Env) (sql : List Char) (remote : Remote)
    (hcfg : configMissing env = false)
    (hnothrow : (runStatements remote.rpc (splitStatements sql)).2 = false) :
    (remote.probe = .ok → (run env (some sql) remote).outcome = .completed) ∧
    (remote.probe = .err →
      (run env (some sql) remote).outcome = .manualFallback ∧
      ∃ line ∈ (run env (some sql) remote).output,
        ∃ a b : String, line = a ++ migrationResourcePath ++ b) := by
  constructor
  · intro hp
    simp [run, hcfg, hnothrow, hp]
  · intro hp
    refine ⟨by simp [run, hcfg, hnothrow, hp], ?_⟩
    refine ⟨"📎 --- Copy the contents of " ++ migrationResourcePath ++ " ---", ?_, ?_⟩
    · simp [run, hcfg, hnothrow, hp, fallbackOutput]
    · exact ⟨"📎 --- Copy the contents of ", " ---", rfl⟩

theorem probe_decides_outcome_witness :
    (run sampleEnv (some []) remoteProbeFails).outcome = .manualFallback ∧
    ∃ line ∈ (run sampleEnv (some []) remoteProbeFails).output,
      ∃ a b : String, line = a ++ migrationResourcePath ++ b :=
  (probe_decides_outcome sampleEnv [] remoteProbeFails rfl rfl).2 rfl

/-- C4: when either configuration value is missing, the run is independent of
the resource file and of the remote capability (so neither is touched), the
file is not read, nothing is submitted, the exit code is non-zero, and the
printed diagnostic names both required environment variables. -/
theorem missing_config_aborts (env : Env) (file file2 : Option (List Char))
    (remote remote2 : Remote) (h : configMissing env = true) :
    run env file remote = run env file2 remote2 ∧
    (run env file remote).fileRead = false ∧
    (run env file remote).submitted = [] ∧
    (run env file remote).exitCode ≠ 0 ∧
    ∃ line ∈ (run env file remote).output, ∃ a b c : String,
      line = a ++ envUrlName ++ b ++ envKeyName ++ c := by
  refine ⟨by simp [run, h], by simp [run, h], by simp [run, h], by simp [run, h], ?_⟩
  refine ⟨"Please ensure " ++ envUrlName ++ " and " ++ envKeyName
      ++ " are set in your .env file", ?_, ?_⟩
  · simp [run, h, missingConfigOutput]
  · exact ⟨"Please ensure ", " and ", " are set in your .env file", rfl⟩

theorem missing_config_aborts_witness :
    run { supabaseUrl := none, supabaseAnonKey := some "anon-key" } (some ['x']) remoteAllOk
      = run { supabaseUrl := none, supabaseAnonKey := some "anon-key" } none remoteProbeFails ∧
    (run { supabaseUrl := none, supabaseAnonKey := some "anon-key" } (some ['x'])
      remoteAllOk).exitCode ≠ 0 :=
  ⟨(missing_config_aborts { supabaseUrl := none, supabaseAnonKey := some "anon-key" }
      (some ['x']) none remoteAllOk remoteProbeFails rfl).1,
   (missing_config_aborts { supabaseUrl := none, supabaseAnonKey := some "anon-key" }
      (some ['x']) none remoteAllOk remoteProbeFails rfl).2.2.2.1⟩

/-- C5: the exit code is 0 on the Completed, ManualFallback and PartialFallback
outcomes, and non-zero on missing configuration and on unhandled failure; in
particular an unreadable migration resource file exits 1. -/
theorem exit_code_policy (env : Env) (file : Option (List Char)) (remote : Remote) :
    ((run env file remote).outcome = .completed ∨
     (run env file remote).outcome = .manualFallback ∨
     (run env file remote).outcome = .partialFallback →
       (run env file remote).exitCode = 0) ∧
    ((run env file remote).outcome = .missingConfig ∨
     (run env file remote).outcome = .failed →
       (run env file remote).exitCode ≠ 0) ∧
    (configMissing env = false → file = none →
      (run env file remote).outcome = .failed ∧ (run env file remote).exitCode = 1) := by
  by_cases hcfg : configMissing env = true
  · simp [run, hcfg]
  · rw [Bool.not_eq_true] at hcfg
    cases file with
    | none => simp [run, hcfg]
    | some sql =>
      cases hthrew : (runStatements remote.rpc (splitStatements sql)).2 with
      | false =>
        cases hp : remote.probe with
        | ok => simp [run, hcfg, hthrew, hp]
        | err => simp [run, hcfg, hthrew, hp]
        | thrown => simp [run, hcfg, hthrew, hp]
      | true => simp [run, hcfg, hthrew]

theorem exit_code_policy_witness :
    (run sampleEnv none remoteAllOk).outcome = .failed ∧
    (run sampleEnv none remoteAllOk).exitCode = 1 :=
  (exit_code_policy sampleEnv none remoteAllOk).2.2 rfl rfl

/-- C8: on a source text none of whose trimmed fragments is usable (each is
empty, a comment, or the escaped-newline marker), the splitter returns the
empty sequence, the statement loop terminates normally submitting nothing, and
the run submits nothing to the remote capability. -/
theorem empty_split_submits_nothing (env : Env) (src : List Char) (remote : Remote)
    (hcfg : configMissing env = false)
    (hunusable : ∀ t ∈ (jsSplitSemi src).map jsTrim, discardFragment t = true) :
    splitStatements src = [] ∧
    runStatements remote.rpc (splitStatements src) = ([], false) ∧
    (run env (some src) remote).submitted = [] := by
  have hempty : splitStatements src = [] := by
    rw [splitStatements, List.filter_eq_nil_iff]
    intro t ht
    rw [keepStmt_eq_not_discard t, hunusable t ht]
    simp
  refine ⟨hempty, by rw [hempty]; rfl, ?_⟩
  cases hp : remote.probe with
  | ok => simp [run, hcfg, hempty, hp, runStatements]
  | err => simp [run, hcfg, hempty, hp, runStatements]
  | thrown => simp [run, hcfg, hempty, hp, runStatements]

theorem empty_split_submits_nothing_witness :
    splitStatements ("-- comment only;\n;   ;".toList) = [] ∧
    (run sampleEnv (some ("-- comment only;\n;   ;".toList)) remoteAllOk).submitted = [] :=
  ⟨(empty_split_submits_nothing sampleEnv ("-- comment only;\n;   ;".toList)
      remoteAllOk rfl (by decide)).1,
   (empty_split_submits_nothing sampleEnv ("-- comment only;\n;   ;".toList)
      remoteAllOk rfl (by decide)).2.2⟩

/-- A two-statement migration source used to exhibit the Completed-after-break
execution. -/
def twoStatementSource : List Char :=
  "CREATE TABLE a (id int);\nCREATE INDEX idx ON a(id);\n".toList

/-- C9: an execution in which the capability rejects the first statement (so
the loop breaks with the second statement never submitted) while the probe
succeeds still reports the Completed outcome and exits 0: Completed does not
imply that every statement was executed. -/
theorem completed_despite_rejected_statement :
    (splitStatements twoStatementSource).length = 2 ∧
    (run sampleEnv (some twoStatementSource) remoteRejectRpc).submitted
      = ["CREATE TABLE a (id int)".toList] ∧
    (run sampleEnv (some twoStatementSource) remoteRejectRpc).outcome = .completed ∧
    (run sampleEnv (some twoStatementSource) remoteRejectRpc).exitCode = 0 := by
  decide
